import Mathlib

/-!
Shallow embedding of the row-driven JSON template expansion tool
(src/app.py) and verification of the frozen claims about it.

Conventions of the embedding:
* Spreadsheet cells are strings: the source reads the table with
  dtype=str and fillna(""), so every cell of the data rows is a string.
* A data row is an association list from column label (abbreviation) to
  the raw cell string.  The source guards every access with
  "col in row", so lookup is total and returns an Option.
* The token mapping (placeholder to abbreviation) is likewise an
  association list; Python dict keys are unique, so first-match lookup
  agrees with dict lookup.
* JSON documents are a mutually inductive tree (Json / JsonList /
  JsonFields) so that every function below is structurally recursive
  and evaluates by kernel reduction.
* Fallible code paths (KeyError, IndexError, AttributeError and
  TypeError, all caught by the source's blanket try/except) are
  modelled with Option: none means the row processing raises.
  Iterating a non-sequence where a list is expected raises in Python
  for every case the claims exercise, so it is modelled as none.
* Python str.strip / str.lower / str.startswith are modelled by
  pyStrip / pyLower / startsPercent below, defined over the character
  list of the string (they agree with Python on the ASCII data the
  source handles, and evaluate by kernel reduction).
-/

namespace ThesisApp

/-- Association lists from String to String, used both for the
placeholder-to-column mapping and for a single data row. -/
abbrev AssocS := List (String × String)

/-- First-match lookup in an association list; models Python dict
lookup (dict keys are unique) and the pandas row access guarded by
"col in row". -/
def lookupS : AssocS → String → Option String
  | [], _ => none
  | (k, v) :: rest, key => if k = key then some v else lookupS rest key

/-- The whitespace stripped by Python str.strip(): space, tab,
newline, carriage return, vertical tab, form feed. -/
def isPySpace (c : Char) : Bool :=
  c = ' ' || c = '\t' || c = '\n' || c = '\r' || c = '\x0b' || c = '\x0c'

/-- Python str.strip(): drop whitespace from both ends. -/
def pyStrip (s : String) : String :=
  String.mk (((s.data.dropWhile isPySpace).reverse.dropWhile isPySpace).reverse)

/-- Python str.lower() restricted to ASCII, which is all the source's
comparisons ("none", "nan") need. -/
def lowerChar (c : Char) : Char :=
  if 'A' ≤ c && c ≤ 'Z' then Char.ofNat (c.toNat + 32) else c

/-- Python str.lower() over the whole string. -/
def pyLower (s : String) : String := String.mk (s.data.map lowerChar)

/-- Python s.startswith(percent sign). -/
def startsPercent (s : String) : Bool :=
  match s.data with
  | '%' :: _ => true
  | _ => false

/-- Python s.endswith(percent sign). -/
def endsPercent (s : String) : Bool :=
  match s.data.getLast? with
  | some '%' => true
  | _ => false

mutual

/-- JSON value tree as loaded by json.load in the source. -/
inductive Json where
  | str (s : String)
  | num (n : Int)
  | bool (b : Bool)
  | null
  | arr (elems : JsonList)
  | obj (fields : JsonFields)

/-- Elements of a JSON array, kept as a bespoke list so that all
recursions over documents are structural. -/
inductive JsonList where
  | nil
  | cons (head : Json) (tail : JsonList)

/-- Fields of a JSON object in insertion order, mirroring a Python
dict with unique string keys. -/
inductive JsonFields where
  | nil
  | cons (key : String) (value : Json) (tail : JsonFields)

end

/-- Field lookup, modelling Python d.get(k) / d[k] on a dict. -/
def JsonFields.lookupF : JsonFields → String → Option Json
  | .nil, _ => none
  | .cons k v rest, key => if k = key then some v else rest.lookupF key

/-- Field assignment d[k] = v on a Python dict: replaces the value in
place when the key exists (position preserved), appends otherwise. -/
def JsonFields.setF : JsonFields → String → Json → JsonFields
  | .nil, key, v => .cons key v .nil
  | .cons k v0 rest, key, v =>
    if k = key then .cons k v rest else .cons k v0 (rest.setF key v)

/-- The character class of the residual-strip regex in the source,
re.sub(r"%[A-Za-z0-9]+%", "", ...): ASCII letters and digits, and
deliberately not the underscore. -/
def isAlnum (c : Char) : Bool :=
  ('A' ≤ c && c ≤ 'Z') || ('a' ≤ c && c ≤ 'z') || ('0' ≤ c && c ≤ '9')

/-- Attempt to match "name%" (one or more alnum chars then a percent
sign) at the head of the character list; on success return the
characters after the closing percent sign.  Together with the leading
percent handled by the caller this is one regex match of
%[A-Za-z0-9]+% with the leftmost, greedy semantics of re.sub. -/
def matchToken (l : List Char) : Option (List Char) :=
  match l.takeWhile isAlnum, l.dropWhile isAlnum with
  | _ :: _, d :: rest => if d = '%' then some rest else none
  | _, _ => none

/-- One left-to-right pass removing non-overlapping matches of
%[A-Za-z0-9]+%, exactly as re.sub does on the serialized document
text.  Fuel is consumed once per examined position; the list shrinks
by at least one per step, so fuel equal to the length suffices. -/
def stripAuxF : Nat → List Char → List Char
  | 0, l => l
  | _ + 1, [] => []
  | fuel + 1, c :: rest =>
    if c = '%' then
      match matchToken rest with
      | some rest3 => stripAuxF fuel rest3
      | none => '%' :: stripAuxF fuel rest
    else c :: stripAuxF fuel rest

/-- The residual-token strip of src/app.py line 205 applied to one
string.  The regex cannot match across JSON string boundaries or
inside escape sequences (its character class is only percent and
alnum, none of which json.dumps escapes), so applying it to every
string and key of the document is equivalent to applying it to the
serialized text. -/
def stripTokens (s : String) : String := String.mk (stripAuxF s.data.length s.data)

mutual

/-- Apply the residual-token strip to every string of the document,
keys included (the source strips the serialized text, where keys
appear as well), modelling dumps / re.sub / loads of lines 204-206. -/
def stripDoc : Json → Json
  | .str s => .str (stripTokens s)
  | .num n => .num n
  | .bool b => .bool b
  | .null => .null
  | .arr l => .arr (stripList l)
  | .obj fs => .obj (stripFields fs)

/-- Residual strip over array elements. -/
def stripList : JsonList → JsonList
  | .nil => .nil
  | .cons j rest => .cons (stripDoc j) (stripList rest)

/-- Residual strip over object fields. -/
def stripFields : JsonFields → JsonFields
  | .nil => .nil
  | .cons k v rest => .cons (stripTokens k) (stripDoc v) (stripFields rest)

end

/-- The underscore-admitting token pattern %[A-Za-z0-9_]+% of the
claim and of the spec's token definition. -/
def isAlnumU (c : Char) : Bool := isAlnum c || c = '_'

/-- Does a match of %[A-Za-z0-9_]+% occur anywhere in the list? -/
def hasTokenUAux : Nat → List Char → Bool
  | 0, _ => false
  | _ + 1, [] => false
  | fuel + 1, c :: rest =>
    if c = '%' then
      match rest.takeWhile isAlnumU, rest.dropWhile isAlnumU with
      | _ :: _, '%' :: _ => true
      | _, _ => hasTokenUAux fuel rest
    else hasTokenUAux fuel rest

/-- Does the string contain a substring matching %[A-Za-z0-9_]+%? -/
def strHasTokenU (s : String) : Bool := hasTokenUAux s.data.length s.data

mutual

/-- Does any string or key of the document contain a substring
matching the token pattern %[A-Za-z0-9_]+%? -/
def docHasTokenU : Json → Bool
  | .str s => strHasTokenU s
  | .num _ => false
  | .bool _ => false
  | .null => false
  | .arr l => listHasTokenU l
  | .obj fs => fieldsHasTokenU fs

/-- Token-pattern search over array elements. -/
def listHasTokenU : JsonList → Bool
  | .nil => false
  | .cons j rest => docHasTokenU j || listHasTokenU rest

/-- Token-pattern search over object fields. -/
def fieldsHasTokenU : JsonFields → Bool
  | .nil => false
  | .cons k v rest => strHasTokenU k || docHasTokenU v || fieldsHasTokenU rest

end

/-- Python truthiness of a JSON value, as used by "if not amount" in
the materials loop. -/
def falsy : Json → Bool
  | .null => true
  | .str s => s = ""
  | .num n => n = 0
  | .bool b => !b
  | .arr .nil => true
  | .arr _ => false
  | .obj .nil => true
  | .obj _ => false

/-- The Missing test of fill_properties (src/app.py line 128):
pd.isna(val) — val is None exactly when the column is absent — or the
trimmed, lowercased cell equal to "" or "none". -/
def missingVal : Option String → Bool
  | none => true
  | some s => pyLower (pyStrip s) = "" || pyLower (pyStrip s) = "none"

/-- fill_properties applied to one element of the properties list
(src/app.py lines 123-131).  A non-object element raises
AttributeError at prop.get, modelled as none.  When the "value" field
holds a string that is a mapping key, the cell is looked up and the
field is overwritten: by "" when Missing, by the raw (untrimmed) cell
text otherwise.  Any other shape of element is left untouched. -/
def fillProp (row mapping : AssocS) (p : Json) : Option Json :=
  match p with
  | .obj fields =>
    match fields.lookupF "value" with
    | some (.str v) =>
      match lookupS mapping v with
      | some col =>
        match lookupS row col with
        | none => some (.obj (fields.setF "value" (.str "")))
        | some val =>
          if pyLower (pyStrip val) = "" ∨ pyLower (pyStrip val) = "none"
          then some (.obj (fields.setF "value" (.str "")))
          else some (.obj (fields.setF "value" (.str val)))
      | none => some (.obj fields)
    | _ => some (.obj fields)
  | _ => none

/-- fill_properties over the elements of a properties array. -/
def fillPropList (row mapping : AssocS) : JsonList → Option JsonList
  | .nil => some .nil
  | .cons p rest =>
    match fillProp row mapping p, fillPropList row mapping rest with
    | some p', some rest' => some (.cons p' rest')
    | _, _ => none

/-- fill_properties (src/app.py lines 119-131): returns immediately
when the argument is not a list, otherwise rewrites each element in
place. -/
def fillProperties (row mapping : AssocS) (props : Json) : Option Json :=
  match props with
  | .arr l =>
    match fillPropList row mapping l with
    | some l' => some (.arr l')
    | none => none
  | other => some other

/-- One iteration of "for proc in processes" (lines 197-198) and of
"for mat in d.get(\x22materials\x22, [])" (lines 200-201): the holder must
be a dict, holder.get("properties", []) defaults to an empty list
(leaving the holder untouched), and fill_properties mutates the
properties in place. -/
def fillHolder (row mapping : AssocS) (holder : Json) : Option Json :=
  match holder with
  | .obj fields =>
    match fields.lookupF "properties" with
    | some props =>
      match fillProperties row mapping props with
      | some props' => some (.obj (fields.setF "properties" props'))
      | none => none
    | none => some (.obj fields)
  | _ => none

/-- fillHolder over a list of processes or of root-level materials. -/
def fillHolderList (row mapping : AssocS) : JsonList → Option JsonList
  | .nil => some .nil
  | .cons h rest =>
    match fillHolder row mapping h, fillHolderList row mapping rest with
    | some h', some rest' => some (.cons h' rest')
    | _, _ => none

/-- One iteration of the materials loop (src/app.py lines 181-193).
Result some none: the material is skipped (dropped from
new_materials); some (some m): the material m is appended; none: the
iteration raises (m.get on a non-dict).  When "amount" holds a mapped
token string, the cell is fetched with default "", trimmed, and
compared against "", "none", "0", "0.0" (exact, case-sensitive); a hit
skips the material, otherwise the amount becomes the trimmed cell.
Otherwise the material is skipped when the amount is falsy or a string
starting with a percent sign, and kept unchanged else. -/
def processMaterial (row mapping : AssocS) (m : Json) : Option (Option Json) :=
  match m with
  | .obj fields =>
    match fields.lookupF "amount" with
    | some (.str a) =>
      match lookupS mapping a with
      | some col =>
        let v := pyStrip ((lookupS row col).getD "")
        if v = "" ∨ v = "none" ∨ v = "0" ∨ v = "0.0" then some none
        else some (some (.obj (fields.setF "amount" (.str v))))
      | none =>
        if a = "" ∨ startsPercent a = true then some none
        else some (some (.obj fields))
    | some j => if falsy j then some none else some (some (.obj fields))
    | none => some none
  | _ => none

/-- The whole materials loop: builds new_materials in order, dropping
the skipped ones. -/
def processMaterials (row mapping : AssocS) : JsonList → Option JsonList
  | .nil => some .nil
  | .cons m rest =>
    match processMaterial row mapping m, processMaterials row mapping rest with
    | some none, some rest' => some rest'
    | some (some m'), some rest' => some (.cons m' rest')
    | _, _ => none

/-- The per-row substitution of src/app.py lines 179-201, before the
residual strip: rewrite the materials of the first process of the
first example, then the properties of every process of the first
example, then the properties of every root-level material.  The
navigation d["examples"][0]["processes"][0]["materials"] requires the
corresponding keys and list shapes; any other shape raises and is
modelled as none. -/
def substRow (row mapping : AssocS) (d : Json) : Option Json :=
  match d with
  | .obj dFields =>
    match dFields.lookupF "examples" with
    | some (.arr (.cons (.obj exFields) exRest)) =>
      match exFields.lookupF "processes" with
      | some (.arr (.cons (.obj p0Fields) ps)) =>
        match p0Fields.lookupF "materials" with
        | some (.arr ms) =>
          match processMaterials row mapping ms with
          | some newMs =>
            match fillHolderList row mapping
                (.cons (.obj (p0Fields.setF "materials" (.arr newMs))) ps) with
            | some procs' =>
              let dFields1 := dFields.setF "examples"
                (.arr (.cons (.obj (exFields.setF "processes" (.arr procs'))) exRest))
              match dFields1.lookupF "materials" with
              | some (.arr mats) =>
                match fillHolderList row mapping mats with
                | some mats' => some (.obj (dFields1.setF "materials" (.arr mats')))
                | none => none
              | some _ => none
              | none => some (.obj dFields1)
            | none => none
          | none => none
        | _ => none
      | _ => none
    | _ => none
  | _ => none

/-- Full per-row pipeline (src/app.py lines 176-206): substitution on
a fresh deep copy of the template, then the residual-token strip on
the serialized text.  Purity of the embedding is the deep copy: the
template argument is never altered. -/
def processRow (row mapping : AssocS) (template : Json) : Option Json :=
  match substRow row mapping template with
  | some d => some (stripDoc d)
  | none => none

/-- The batch loop (src/app.py lines 176-212): one output per data
row, in order, each produced from the shared template and mapping. -/
def processBatch (rows : List AssocS) (mapping : AssocS) (template : Json) :
    List (Option Json) :=
  rows.foldl (fun acc r => acc ++ [processRow r mapping template]) []

/-- The placeholder-cell test of validate_excel (src/app.py lines
86-87): the cell text must start and end with a percent sign; nothing
else — no trimming, no check of the characters in between. -/
def placeholderCellOk (s : String) : Bool := startsPercent s && endsPercent s

/-- Row i of the raw table (raw.iloc[i] as a list of cell strings). -/
def rowAt (raw : List (List String)) (i : Nat) : List String := (raw[i]?).getD []

/-- The error list accumulated by validate_excel (src/app.py lines
71-113), one tag per error family, in source order: row count,
placeholder format, blank abbreviation, column-count mismatch, and one
tag per all-blank data row. -/
def validateErrors (raw : List (List String)) : List String :=
  (if raw.length < 5 then ["rowcount"] else [])
    ++ (if 3 ≤ raw.length &&
          (rowAt raw 2).any (fun c => !(placeholderCellOk c))
        then ["placeholder"] else [])
    ++ (if 4 ≤ raw.length &&
          (rowAt raw 3).any (fun c => pyStrip c = "" || pyLower c = "nan")
        then ["abbr"] else [])
    ++ (if 3 ≤ raw.length && !((rowAt raw 1).length = (rowAt raw 2).length)
        then ["colcount"] else [])
    ++ ((raw.drop 4).filterMap
        (fun r => if r.all (fun c => pyStrip c = "") then some "emptyrow" else none))

/-- validate_excel returns ok exactly when no error was collected; any
error makes the app stop before processing any row (lines 151-155). -/
def validateExcel (raw : List (List String)) : Bool := (validateErrors raw).isEmpty

/-- Navigate to examples[0].processes[0].properties of a document. -/
def firstProcessProperties (d : Json) : Option JsonList :=
  match d with
  | .obj dFields =>
    match dFields.lookupF "examples" with
    | some (.arr (.cons (.obj exFields) _)) =>
      match exFields.lookupF "processes" with
      | some (.arr (.cons (.obj p0Fields) _)) =>
        match p0Fields.lookupF "properties" with
        | some (.arr l) => some l
        | _ => none
      | _ => none
    | _ => none
  | _ => none

/-- Navigate to examples[0].processes[0].materials of a document. -/
def firstProcessMaterials (d : Json) : Option JsonList :=
  match d with
  | .obj dFields =>
    match dFields.lookupF "examples" with
    | some (.arr (.cons (.obj exFields) _)) =>
      match exFields.lookupF "processes" with
      | some (.arr (.cons (.obj p0Fields) _)) =>
        match p0Fields.lookupF "materials" with
        | some (.arr l) => some l
        | _ => none
      | _ => none
    | _ => none
  | _ => none

/-- Top-level field of a document. -/
def topLookup (d : Json) (k : String) : Option Json :=
  match d with
  | .obj fs => fs.lookupF k
  | _ => none

/-!
Helper lemmas about the residual-token strip: a fuel argument at least
the list length is irrelevant, and a leading token match consumes
exactly the token.
-/

theorem length_dropWhile_le (p : Char → Bool) (l : List Char) :
    (l.dropWhile p).length ≤ l.length := by
  induction l with
  | nil => simp [List.dropWhile]
  | cons c rest ih =>
    simp only [List.dropWhile]
    cases p c <;> simp
    omega

theorem matchToken_some_length {l r : List Char} (h : matchToken l = some r) :
    r.length < l.length := by
  unfold matchToken at h
  rcases htw : l.takeWhile isAlnum with _ | ⟨a, tw⟩ <;> rw [htw] at h
  · rcases hdw : l.dropWhile isAlnum with _ | ⟨d, dw⟩ <;> rw [hdw] at h <;> simp at h
  · rcases hdw : l.dropWhile isAlnum with _ | ⟨d, dw⟩ <;> rw [hdw] at h
    · simp at h
    · simp only at h
      by_cases hd : d = '%'
      · rw [if_pos hd] at h
        have hr : dw = r := by injection h
        subst hr
        have hsplit := List.takeWhile_append_dropWhile (p := isAlnum) (l := l)
        rw [htw, hdw] at hsplit
        have hlen := congrArg List.length hsplit
        simp [List.length_append] at hlen
        omega
      · rw [if_neg hd] at h
        exact absurd h (by simp)

theorem takeWhile_all_append (p : Char → Bool) (l1 l2 : List Char)
    (h : l1.all p = true) : (l1 ++ l2).takeWhile p = l1 ++ l2.takeWhile p := by
  induction l1 with
  | nil => simp
  | cons c rest ih =>
    simp only [List.all_cons, Bool.and_eq_true] at h
    simp [List.takeWhile, h.1, ih h.2]

theorem dropWhile_all_append (p : Char → Bool) (l1 l2 : List Char)
    (h : l1.all p = true) : (l1 ++ l2).dropWhile p = l2.dropWhile p := by
  induction l1 with
  | nil => simp
  | cons c rest ih =>
    simp only [List.all_cons, Bool.and_eq_true] at h
    simp [List.dropWhile, h.1, ih h.2]

theorem matchToken_token (name rest : List Char) (h1 : name ≠ [])
    (h2 : name.all isAlnum = true) :
    matchToken (name ++ '%' :: rest) = some rest := by
  unfold matchToken
  have hpc : isAlnum '%' = false := rfl
  rw [takeWhile_all_append _ _ _ h2, dropWhile_all_append _ _ _ h2]
  simp only [List.takeWhile, List.dropWhile, hpc]
  cases name with
  | nil => exact absurd rfl h1
  | cons a tl => simp

theorem stripAuxF_mono : ∀ (f1 f2 : Nat) (l : List Char), l.length ≤ f1 → l.length ≤ f2 →
    stripAuxF f1 l = stripAuxF f2 l := by
  intro f1
  induction f1 with
  | zero =>
    intro f2 l h1 _
    have : l = [] := List.length_eq_zero.mp (Nat.le_zero.mp h1)
    subst this
    cases f2 <;> rfl
  | succ n ih =>
    intro f2 l h1 h2
    cases l with
    | nil => cases f2 <;> rfl
    | cons c rest =>
      cases f2 with
      | zero => simp at h2
      | succ m =>
        have hr : rest.length ≤ n := by simp [List.length_cons] at h1; omega
        have hrm : rest.length ≤ m := by simp [List.length_cons] at h2; omega
        simp only [stripAuxF]
        by_cases hc : c = '%'
        · subst hc
          simp only [if_pos rfl]
          cases hm : matchToken rest with
          | none => simp only; rw [ih m rest hr hrm]
          | some rest3 =>
            have hlt := matchToken_some_length hm
            simp only
            exact ih m rest3 (by omega) (by omega)
        · simp only [if_neg hc]
          rw [ih m rest hr hrm]

theorem stripAuxF_cons_token (fuel : Nat) (name rest : List Char) (h1 : name ≠ [])
    (h2 : name.all isAlnum = true) (h3 : rest.length ≤ fuel) :
    stripAuxF (fuel + 1) ('%' :: (name ++ '%' :: rest)) = stripAuxF rest.length rest := by
  simp only [stripAuxF, if_pos rfl, matchToken_token name rest h1 h2]
  exact stripAuxF_mono fuel rest.length rest h3 le_rfl

theorem stripTokens_leading_token (name rest : String) (h1 : name.data ≠ [])
    (h2 : name.data.all isAlnum = true) :
    stripTokens ("%" ++ name ++ "%" ++ rest) = stripTokens rest := by
  have hpc : ("%" : String).data = ['%'] := rfl
  have hdata : ("%" ++ name ++ "%" ++ rest).data = '%' :: (name.data ++ '%' :: rest.data) := by
    simp [String.data_append, hpc]
  unfold stripTokens
  rw [hdata]
  have hlen : ('%' :: (name.data ++ '%' :: rest.data)).length
      = (name.data.length + 1 + rest.data.length) + 1 := by
    simp [List.length_append, List.length_cons]
    omega
  rw [hlen]
  rw [stripAuxF_cons_token _ _ _ h1 h2 (by omega)]

/-!
Concrete documents used by the counterexamples: minimal templates with
the mandatory examples[0].processes[0].materials skeleton that the
per-row loop navigates.
-/

/-- Template whose first process has no materials and one property
node with a tokenized value and unit, the shape of the deletion
trigger example of the spec. -/
def tmplProp : Json :=
  .obj (.cons "examples" (.arr (.cons (.obj (.cons "processes"
    (.arr (.cons (.obj (.cons "materials" (.arr .nil)
      (.cons "properties" (.arr (.cons (.obj (.cons "value" (.str "%V%")
        (.cons "unit" (.str "%U%") .nil))) .nil)) .nil))) .nil)) .nil)) .nil)) .nil)

/-- Template carrying a token with an underscore in its name in a
top-level string field, next to the mandatory skeleton. -/
def tmplUnderscore : Json :=
  .obj (.cons "examples" (.arr (.cons (.obj (.cons "processes"
    (.arr (.cons (.obj (.cons "materials" (.arr .nil) .nil)) .nil)) .nil)) .nil))
    (.cons "note" (.str "%A_1%") .nil))

/-- Template whose first process has a single material with a token
amount and a name sibling. -/
def tmplMat : Json :=
  .obj (.cons "examples" (.arr (.cons (.obj (.cons "processes"
    (.arr (.cons (.obj (.cons "materials"
      (.arr (.cons (.obj (.cons "amount" (.str "%Z%")
        (.cons "name" (.str "M") .nil))) .nil)) .nil)) .nil)) .nil)) .nil)) .nil)

/-- Template with a string field outside the three substitution paths
holding the given string, next to the mandatory skeleton. -/
def tmplTitle (s : String) : Json :=
  .obj (.cons "title" (.str s)
    (.cons "examples" (.arr (.cons (.obj (.cons "processes"
      (.arr (.cons (.obj (.cons "materials" (.arr .nil) .nil)) .nil)) .nil)) .nil)) .nil))

/-- The batch loop produces outputs positionally: helper describing
foldl-with-append as a map. -/
theorem foldl_append_eq_map (f : AssocS → Option Json) :
    ∀ (rows : List AssocS) (acc : List (Option Json)),
      rows.foldl (fun a r => a ++ [f r]) acc = acc ++ rows.map f := by
  intro rows
  induction rows with
  | nil => intro acc; simp
  | cons r rest ih => intro acc; simp [List.foldl, ih]

/-!
Claim C1.
-/

/-- Claim C1, counterexample: a property object whose value token
resolves to Missing (the cell for V is the empty string) is NOT
deleted by the code: after the full per-row pipeline the properties
list of the first process still contains the object, with value set to
the empty string and the unit token stripped to the empty string. -/
theorem C1_property_object_survives_cx :
    firstProcessProperties
        ((processRow [("V", ""), ("U", "u")] [("%V%", "V"), ("%U%", "U")] tmplProp).getD .null)
      = some (.cons (.obj (.cons "value" (.str "") (.cons "unit" (.str "") .nil))) .nil) := rfl

/-- Claim C1 as amended: when an object in a properties list holds in
its value field a token that is in the mapping and the row value it
resolves to is Missing (absent column, blank, whitespace-only, or
case-insensitive none), fill_properties keeps the entire enclosing
object and merely sets its value field to the empty string; siblings
are untouched.  Deletion of the enclosing object never happens for
property nodes. -/
theorem C1_property_missing_value_blanks_field
    (row mapping : AssocS) (fields : JsonFields) (v col : String)
    (h1 : fields.lookupF "value" = some (.str v))
    (h2 : lookupS mapping v = some col)
    (h3 : missingVal (lookupS row col) = true) :
    fillProp row mapping (.obj fields) = some (.obj (fields.setF "value" (.str ""))) := by
  simp only [fillProp, h1, h2]
  cases hv : lookupS row col with
  | none => simp
  | some val =>
    rw [hv] at h3
    simp only [missingVal, Bool.or_eq_true, decide_eq_true_eq] at h3
    dsimp only
    rw [if_pos h3]

/-- Claim C1, witness: the amended theorem applied to a concrete
property object with a whitespace-only cell. -/
theorem C1_property_missing_value_blanks_field_w :
    missingVal (lookupS [("V", " ")] "V") = true
    ∧ fillProp [("V", " ")] [("%V%", "V")]
        (.obj (.cons "value" (.str "%V%") (.cons "unit" (.str "u") .nil)))
      = some (.obj (.cons "value" (.str "") (.cons "unit" (.str "u") .nil))) :=
  ⟨by decide,
    C1_property_missing_value_blanks_field [("V", " ")] [("%V%", "V")]
      (.cons "value" (.str "%V%") (.cons "unit" (.str "u") .nil)) "%V%" "V"
      rfl rfl (by decide)⟩

/-!
Claim C2.
-/

/-- Claim C2, counterexample: the residual-strip regex class is
[A-Za-z0-9] without the underscore, so a residual token whose name
contains an underscore survives the pass: the emitted document for
this row still contains a substring matching the claimed pattern
%[A-Za-z0-9_]+%. -/
theorem C2_underscore_token_survives_cx :
    processRow [] [] tmplUnderscore = some tmplUnderscore
    ∧ docHasTokenU ((processRow [] [] tmplUnderscore).getD .null) = true := ⟨rfl, rfl⟩

/-- Claim C2 as amended: the residual pass strips tokens whose names
are purely alphanumeric (pattern without underscore): a leading
residual token of that shape is removed and scanning continues after
it, while a token whose name contains an underscore is left in the
output unchanged. -/
theorem C2_residual_strip_no_underscore :
    (∀ name rest : String, name.data ≠ [] → name.data.all isAlnum = true →
      stripTokens ("%" ++ name ++ "%" ++ rest) = stripTokens rest)
    ∧ stripTokens "%A_1%" = "%A_1%" :=
  ⟨stripTokens_leading_token, rfl⟩

/-- Claim C2, witness: the amended theorem applied to the token named
A1 followed by arbitrary text. -/
theorem C2_residual_strip_no_underscore_w :
    ("A1" : String).data ≠ [] ∧ ("A1" : String).data.all isAlnum = true
    ∧ stripTokens ("%" ++ "A1" ++ "%" ++ "xy") = stripTokens "xy" :=
  ⟨by decide, by decide,
    C2_residual_strip_no_underscore.1 "A1" "xy" (by decide) (by decide)⟩

/-!
Claim C3.
-/

/-- Claim C3, counterexample: an unmatched token in a material amount
field does, by itself, cause the enclosing object to be removed: with
an empty mapping the material with amount token Z (and a sibling name)
is dropped from the materials list by the per-row pipeline, leaving
the list empty. -/
theorem C3_unmatched_amount_removes_material_cx :
    firstProcessMaterials ((processRow [] [] tmplMat).getD .null) = some .nil := rfl

/-- Claim C3 as amended: nothing is recorded or reported for
unmatched tokens.  An unmatched token in a property value field is
left unresolved in place (the object is returned unchanged, so the
later residual pass can act on it); an unmatched token in a material
amount field (any amount string starting with a percent sign that is
not a mapping key) causes the entire enclosing material object to be
skipped. -/
theorem C3_unmatched_token_behavior :
    (∀ (row mapping : AssocS) (fields : JsonFields) (v : String),
      fields.lookupF "value" = some (.str v) → lookupS mapping v = none →
      fillProp row mapping (.obj fields) = some (.obj fields))
    ∧ (∀ (row mapping : AssocS) (fields : JsonFields) (a : String),
      fields.lookupF "amount" = some (.str a) → lookupS mapping a = none →
      startsPercent a = true →
      processMaterial row mapping (.obj fields) = some none) := by
  constructor
  · intro row mapping fields v h1 h2
    simp only [fillProp, h1, h2]
  · intro row mapping fields a h1 h2 h3
    simp only [processMaterial, h1, h2]
    rw [if_pos (Or.inr h3)]

/-- Claim C3, witness: both halves of the amended theorem applied to
concrete nodes with an unmatched token and the empty mapping. -/
theorem C3_unmatched_token_behavior_w :
    fillProp [] [] (.obj (.cons "value" (.str "%Q%") .nil))
      = some (.obj (.cons "value" (.str "%Q%") .nil))
    ∧ processMaterial [] [] (.obj (.cons "amount" (.str "%Q%") .nil)) = some none :=
  ⟨C3_unmatched_token_behavior.1 [] [] (.cons "value" (.str "%Q%") .nil) "%Q%" rfl rfl,
    C3_unmatched_token_behavior.2 [] [] (.cons "amount" (.str "%Q%") .nil) "%Q%"
      rfl rfl rfl⟩

/-!
Claim C4.
-/

/-- Claim C4: in the materials loop of the first process of the first
example, a material whose amount field is a mapped token is removed
from the materials list when the trimmed row value is the empty
string, none, 0 or 0.0, and otherwise is kept with its amount replaced
by the trimmed row value. -/
theorem C4_material_amount_trigger
    (row mapping : AssocS) (fields : JsonFields) (a col : String) (rest : JsonList)
    (h1 : fields.lookupF "amount" = some (.str a))
    (h2 : lookupS mapping a = some col) :
    ((pyStrip ((lookupS row col).getD "") = "" ∨ pyStrip ((lookupS row col).getD "") = "none"
        ∨ pyStrip ((lookupS row col).getD "") = "0" ∨ pyStrip ((lookupS row col).getD "") = "0.0") →
      processMaterials row mapping (.cons (.obj fields) rest)
        = processMaterials row mapping rest)
    ∧ (¬(pyStrip ((lookupS row col).getD "") = "" ∨ pyStrip ((lookupS row col).getD "") = "none"
        ∨ pyStrip ((lookupS row col).getD "") = "0" ∨ pyStrip ((lookupS row col).getD "") = "0.0") →
      processMaterials row mapping (.cons (.obj fields) rest)
        = (processMaterials row mapping rest).map
            (fun g => .cons (.obj (fields.setF "amount"
              (.str (pyStrip ((lookupS row col).getD ""))))) g)) := by
  constructor
  · intro htrig
    simp only [processMaterials, processMaterial, h1, h2]
    rw [if_pos htrig]
    cases processMaterials row mapping rest <;> simp
  · intro htrig
    simp only [processMaterials, processMaterial, h1, h2]
    rw [if_neg htrig]
    cases processMaterials row mapping rest <;> simp

/-- Claim C4, witness: a material whose cell reads 0 surrounded by
whitespace is removed, one whose cell reads 5 surrounded by whitespace
is kept with the trimmed amount. -/
theorem C4_material_amount_trigger_w :
    processMaterials [("a", " 0 ")] [("%A%", "a")]
        (.cons (.obj (.cons "amount" (.str "%A%") .nil)) .nil) = some .nil
    ∧ processMaterials [("a", " 5 ")] [("%A%", "a")]
        (.cons (.obj (.cons "amount" (.str "%A%") .nil)) .nil)
      = some (.cons (.obj (.cons "amount" (.str "5") .nil)) .nil) :=
  ⟨(C4_material_amount_trigger [("a", " 0 ")] [("%A%", "a")]
      (.cons "amount" (.str "%A%") .nil) "%A%" "a" .nil rfl rfl).1 (by decide),
    (C4_material_amount_trigger [("a", " 5 ")] [("%A%", "a")]
      (.cons "amount" (.str "%A%") .nil) "%A%" "a" .nil rfl rfl).2 (by decide)⟩

/-!
Claim C5.
-/

/-- Claim C5: zero is data for property values.  When a property value
token is mapped and the column is present, the value becomes the empty
string exactly when the trimmed lowercased cell is blank or the
literal none; any other cell, in particular the string 0, is preserved
verbatim and the object is never deleted. -/
theorem C5_zero_is_data
    (row mapping : AssocS) (fields : JsonFields) (v col s : String)
    (h1 : fields.lookupF "value" = some (.str v))
    (h2 : lookupS mapping v = some col)
    (h3 : lookupS row col = some s) :
    fillProp row mapping (.obj fields)
      = some (.obj (fields.setF "value"
          (.str (if pyLower (pyStrip s) = "" ∨ pyLower (pyStrip s) = "none" then "" else s)))) := by
  simp only [fillProp, h1, h2, h3]
  by_cases h : pyLower (pyStrip s) = "" ∨ pyLower (pyStrip s) = "none"
  · rw [if_pos h, if_pos h]
  · rw [if_neg h, if_neg h]

/-- Claim C5, witness: a property whose value token resolves to the
cell 0 keeps the value 0. -/
theorem C5_zero_is_data_w :
    fillProp [("V", "0")] [("%V%", "V")] (.obj (.cons "value" (.str "%V%") .nil))
      = some (.obj (.cons "value" (.str "0") .nil)) :=
  C5_zero_is_data [("V", "0")] [("%V%", "V")] (.cons "value" (.str "%V%") .nil)
    "%V%" "V" "0" rfl rfl rfl

/-!
Claim C6.
-/

/-- Claim C6, counterexample: the material-amount deletion check
compares the trimmed cell against the exact lowercase text none, so
the capitalized cell None is NOT classified as Missing there: the
material is kept with amount None. -/
theorem C6_capitalized_none_material_kept_cx :
    processMaterial [("a", "None")] [("%A%", "a")] (.obj (.cons "amount" (.str "%A%") .nil))
      = some (some (.obj (.cons "amount" (.str "None") .nil))) := rfl

/-- Claim C6 as amended: only the property-value substitution treats
the literal none case-insensitively (it lowercases the trimmed cell
before comparing); the material-amount deletion check compares the
trimmed cell literally, so only the exact lowercase none triggers
deletion and any other capitalization is kept as data. -/
theorem C6_none_case_sensitivity :
    (∀ (row mapping : AssocS) (fields : JsonFields) (v col s : String),
      fields.lookupF "value" = some (.str v) → lookupS mapping v = some col →
      lookupS row col = some s → pyLower (pyStrip s) = "none" →
      fillProp row mapping (.obj fields) = some (.obj (fields.setF "value" (.str ""))))
    ∧ (∀ (row mapping : AssocS) (fields : JsonFields) (a col s : String),
      fields.lookupF "amount" = some (.str a) → lookupS mapping a = some col →
      lookupS row col = some s → pyStrip s = "None" →
      processMaterial row mapping (.obj fields)
        = some (some (.obj (fields.setF "amount" (.str "None"))))) := by
  constructor
  · intro row mapping fields v col s h1 h2 h3 h4
    simp only [fillProp, h1, h2, h3]
    rw [if_pos (Or.inr h4)]
  · intro row mapping fields a col s h1 h2 h3 h4
    simp only [processMaterial, h1, h2, h3, Option.getD_some, h4]
    rw [if_neg (by simp)]

/-- Claim C6, witness: the cell NoNe blanks a property value, while
the cell None surrounded by whitespace keeps a material. -/
theorem C6_none_case_sensitivity_w :
    fillProp [("V", "NoNe")] [("%V%", "V")] (.obj (.cons "value" (.str "%V%") .nil))
      = some (.obj (.cons "value" (.str "") .nil))
    ∧ processMaterial [("a", " None ")] [("%A%", "a")]
        (.obj (.cons "amount" (.str "%A%") .nil))
      = some (some (.obj (.cons "amount" (.str "None") .nil))) :=
  ⟨C6_none_case_sensitivity.1 [("V", "NoNe")] [("%V%", "V")]
      (.cons "value" (.str "%V%") .nil) "%V%" "V" "NoNe" rfl rfl rfl (by decide),
    C6_none_case_sensitivity.2 [("a", " None ")] [("%A%", "a")]
      (.cons "amount" (.str "%A%") .nil) "%A%" "a" " None " rfl rfl rfl (by decide)⟩

/-!
Claim C7.
-/

/-- Claim C7, counterexample: a five-row table whose placeholder row
holds the cells with a space inside and a bare percent sign passes
validation, although neither matches the token pattern: the check only
looks at the first and last character. -/
theorem C7_malformed_placeholder_accepted_cx :
    validateExcel [["c", "c2"], ["f", "f2"], ["%a b%", "%"], ["ab", "ab2"], ["1", "2"]]
      = true := rfl

/-- Claim C7 as amended: validation does reject, before any row is
processed, a table with fewer than five rows; but a placeholder-row
cell is only checked to start and to end with a percent sign, with no
trimming and no check of the inner characters, so cells like the
percent-a-space-b-percent text or a bare percent sign are accepted,
while a valid token surrounded by whitespace is rejected. -/
theorem C7_validation_checks :
    (∀ raw : List (List String), raw.length < 5 → validateExcel raw = false)
    ∧ placeholderCellOk "%a b%" = true ∧ placeholderCellOk "%" = true
    ∧ placeholderCellOk " %A1% " = false := by
  refine ⟨?_, rfl, rfl, rfl⟩
  intro raw h
  simp [validateExcel, validateErrors, h]

/-- Claim C7, witness: the empty table has fewer than five rows and is
rejected. -/
theorem C7_validation_checks_w :
    ([] : List (List String)).length < 5 ∧ validateExcel [] = false :=
  ⟨by decide, C7_validation_checks.1 [] (by decide)⟩

/-!
Claim C8.
-/

/-- Claim C8: the per-row loop works on a fresh deep copy of the
template (modelled by pure application of processRow to the shared,
immutable template value), so the output at index i of the batch is
exactly processRow of row i with the original template and mapping: it
depends only on that row, never on what earlier rows did. -/
theorem C8_batch_row_independent
    (template : Json) (mapping : AssocS) (rows : List AssocS) (i : Nat) (r : AssocS)
    (h : rows[i]? = some r) :
    (processBatch rows mapping template)[i]? = some (processRow r mapping template) := by
  unfold processBatch
  rw [foldl_append_eq_map (fun r => processRow r mapping template) rows []]
  simp [List.getElem?_map, h]

/-- Claim C8, witness: a two-row batch over the property template
yields at index one the result of processing row one alone. -/
theorem C8_batch_row_independent_w :
    ([[("V", "1")], [("V", "2")]] : List AssocS)[1]? = some [("V", "2")]
    ∧ (processBatch [[("V", "1")], [("V", "2")]] [("%V%", "V")] tmplProp)[1]?
      = some (processRow [("V", "2")] [("%V%", "V")] tmplProp) :=
  ⟨rfl, C8_batch_row_independent tmplProp [("%V%", "V")]
    [[("V", "1")], [("V", "2")]] 1 [("V", "2")] rfl⟩

/-!
Claim C9.
-/

/-- Claim C9, counterexample: a mapped token whose name contains an
underscore, placed outside the three substitution paths (in a
top-level title field), is neither looked up in the row nor removed by
the strip: the emitted document still carries the literal token, not
the empty string the claim predicts. -/
theorem C9_mapped_underscore_token_elsewhere_cx :
    topLookup ((processRow [("c", "hello")] [("%A_1%", "c")]
        (tmplTitle "%A_1%")).getD .null) "title" = some (.str "%A_1%") := rfl

/-- Claim C9 as amended: a string outside the three substitution paths
is never looked up in the row: whatever the mapping and the row, the
pipeline leaves it exactly as transformed by the serialized-text
residual strip — so a purely alphanumeric token there becomes the
empty string regardless of the row data, while a token with an
underscore in its name stays literally in the output. -/
theorem C9_unsupported_path_strip (mapping row : AssocS) (s : String) :
    processRow row mapping (tmplTitle s) = some (tmplTitle (stripTokens s)) := rfl

/-- Claim C9, witness: a mapped alphanumeric token in the title field
becomes the empty string even though its row cell holds a value. -/
theorem C9_unsupported_path_strip_w :
    processRow [("c", "v")] [("%B%", "c")] (tmplTitle "%B%") = some (tmplTitle "") :=
  C9_unsupported_path_strip [("%B%", "c")] [("c", "v")] "%B%"

/-!
Claim C10.
-/

/-- Claim C10: a mapped row-key naming a column absent from the row
never raises: the property-value substitution writes the empty string
into the value field, and the materials loop drops the material whose
amount token maps to the absent column. -/
theorem C10_missing_column_safe :
    (∀ (row mapping : AssocS) (fields : JsonFields) (v col : String),
      fields.lookupF "value" = some (.str v) → lookupS mapping v = some col →
      lookupS row col = none →
      fillProp row mapping (.obj fields) = some (.obj (fields.setF "value" (.str ""))))
    ∧ (∀ (row mapping : AssocS) (fields : JsonFields) (a col : String),
      fields.lookupF "amount" = some (.str a) → lookupS mapping a = some col →
      lookupS row col = none →
      processMaterial row mapping (.obj fields) = some none) := by
  constructor
  · intro row mapping fields v col h1 h2 h3
    simp only [fillProp, h1, h2, h3]
  · intro row mapping fields a col h1 h2 h3
    simp only [processMaterial, h1, h2, h3, Option.getD_none]
    have h0 : pyStrip "" = "" := rfl
    rw [h0]
    simp

/-- Claim C10, witness: with an empty row, a property value token is
blanked and a material with an amount token is dropped. -/
theorem C10_missing_column_safe_w :
    fillProp [] [("%V%", "V")] (.obj (.cons "value" (.str "%V%") .nil))
      = some (.obj (.cons "value" (.str "") .nil))
    ∧ processMaterial [] [("%A%", "a")] (.obj (.cons "amount" (.str "%A%") .nil))
      = some none :=
  ⟨C10_missing_column_safe.1 [] [("%V%", "V")] (.cons "value" (.str "%V%") .nil)
      "%V%" "V" rfl rfl rfl,
    C10_missing_column_safe.2 [] [("%A%", "a")] (.cons "amount" (.str "%A%") .nil)
      "%A%" "a" rfl rfl rfl⟩

end ThesisApp
